import Mathlib

/-!
Shallow embedding of the `danmandel/trading-client` repository (Rust), covering
the parts exercised by the specification: the websocket endpoint resolver
(`get_ws_url` in `src/alpaca.rs`), the subscription builders
(`src/datastructures/client.rs`), the inbound event decoder
(`EventType::from_str` in `src/datastructures/event.rs`), and the
handshake/subscribe control flow of `AlpacaClient::subscribe`
(`src/alpaca.rs`).

JSON payloads are modelled as an inductive `Json` value type; outbound wire
messages are compared at the level of their (parsed) JSON values, since
`serde_json::Value::to_string` is injective on values and `serde_json`'s
default map is ordered (BTreeMap, keys sorted).  `f64` wire numbers carry no
arithmetic in this code path (they are only stored, zero-defaulted, or cast to
`u64`), so they are modelled as exact rationals.
-/

/-- JSON values.  `obj` keeps an association list of fields; `serde_json`'s
default `Map` iterates keys in sorted order, which the concrete objects below
respect. -/
inductive Json where
  | null : Json
  | bool (b : Bool) : Json
  | num (q : ℚ) : Json
  | str (s : String) : Json
  | arr (elems : List Json) : Json
  | obj (fields : List (String × Json)) : Json

/-- Field lookup in a JSON object's association list (first match). -/
def jsonField (fields : List (String × Json)) (key : String) : Option Json :=
  match fields with
  | [] => none
  | (k, v) :: rest => if k = key then some v else jsonField rest key

/-- Rust `str::contains(pat)`: substring containment. -/
def containsSubstr (hay pat : String) : Bool :=
  decide (pat.toList <:+: hay.toList)

/-- `FeedType` from `src/datastructures/client.rs`. -/
inductive FeedType where
  | Stocks
  | Crypto
  | News
  | Options
  | Test
deriving DecidableEq

instance : Fintype FeedType :=
  ⟨⟨{FeedType.Stocks, FeedType.Crypto, FeedType.News, FeedType.Options,
     FeedType.Test}, by decide⟩, by intro x; cases x <;> decide⟩

/-- `get_ws_url` from `src/alpaca.rs`.  The Rust `match` has arms for
`Stocks`, `Crypto`, `News` and `Options` only; the `Test` variant of
`FeedType` has no arm (a non-exhaustive match), which is modelled by
returning `none` for `Test`. -/
def get_ws_url (feed_type : FeedType) (enable_real_trading : Bool) :
    Option String :=
  match feed_type with
  | .Stocks =>
      some (if enable_real_trading then
        "wss://api.alpaca.markets/stream"
      else
        "wss://stream.data.alpaca.markets/v2/test")
  | .Crypto =>
      some (if enable_real_trading then
        "wss://stream.data.alpaca.markets/v1beta3/crypto/us"
      else
        "wss://stream.data.sandbox.alpaca.markets/v1beta3/crypto/us")
  | .News =>
      some (if enable_real_trading then
        "wss://stream.data.alpaca.markets/v1beta1/news"
      else
        "wss://stream.data.sandbox.alpaca.markets/v1beta1/news")
  | .Options =>
      some (if enable_real_trading then
        "wss://stream.data.alpaca.markets/v1beta1/{feed}"
      else
        "wss://stream.data.sandbox.alpaca.markets/v1beta1/{feed}")
  | .Test => none

/-- `SubscriptionRequest` from `src/datastructures/client.rs`.  Symbols are
`&'static str` in Rust, modelled as `String`. -/
structure SubscriptionRequest where
  action : String
  trades : List String
  quotes : List String
  bars : List String
  updated_bars : List String
  daily_bars : List String
  orderbooks : List String
deriving DecidableEq

/-- `SubscriptionRequestBuilder` from `src/datastructures/client.rs`. -/
structure SubscriptionRequestBuilder where
  trades : List String
  quotes : List String
  bars : List String
  updated_bars : List String
  daily_bars : List String
  orderbooks : List String
deriving DecidableEq

namespace SubscriptionRequestBuilder

/-- `SubscriptionRequestBuilder::new`. -/
def new : SubscriptionRequestBuilder :=
  ⟨[], [], [], [], [], []⟩

/-- Setter `trades` (named `setTrades` here because the structure field
projection already uses the source name): `self.trades = trades.to_vec()`. -/
def setTrades (b : SubscriptionRequestBuilder) (l : List String) :
    SubscriptionRequestBuilder :=
  { b with trades := l }

/-- Setter `quotes`: `self.quotes = quotes.to_vec()`. -/
def setQuotes (b : SubscriptionRequestBuilder) (l : List String) :
    SubscriptionRequestBuilder :=
  { b with quotes := l }

/-- Setter `bars`: `self.bars = bars.to_vec()`. -/
def setBars (b : SubscriptionRequestBuilder) (l : List String) :
    SubscriptionRequestBuilder :=
  { b with bars := l }

/-- Setter `updated_bars`: `self.updated_bars = updated_bars.to_vec()`. -/
def setUpdatedBars (b : SubscriptionRequestBuilder) (l : List String) :
    SubscriptionRequestBuilder :=
  { b with updated_bars := l }

/-- Setter `daily_bars`: `self.daily_bars = daily_bars.to_vec()`. -/
def setDailyBars (b : SubscriptionRequestBuilder) (l : List String) :
    SubscriptionRequestBuilder :=
  { b with daily_bars := l }

/-- Setter `orderbooks`: `self.orderbooks = orderbooks.to_vec()`. -/
def setOrderbooks (b : SubscriptionRequestBuilder) (l : List String) :
    SubscriptionRequestBuilder :=
  { b with orderbooks := l }

/-- `SubscriptionRequestBuilder::build`. -/
def build (b : SubscriptionRequestBuilder) : SubscriptionRequest :=
  { action := "subscribe"
    trades := b.trades
    quotes := b.quotes
    bars := b.bars
    updated_bars := b.updated_bars
    daily_bars := b.daily_bars
    orderbooks := b.orderbooks }

end SubscriptionRequestBuilder

/-- `SubscriptionParams` from `src/datastructures/client.rs`. -/
structure SubscriptionParams where
  feed_type : FeedType
  subscription_request : SubscriptionRequest

/-- `SubscriptionParamsBuilder` from `src/datastructures/client.rs`. -/
structure SubscriptionParamsBuilder where
  feed_type : Option FeedType
  subscription_request : SubscriptionRequestBuilder

namespace SubscriptionParamsBuilder

/-- `SubscriptionParamsBuilder::new`. -/
def new : SubscriptionParamsBuilder :=
  { feed_type := none, subscription_request := SubscriptionRequestBuilder.new }

/-- Setter `feed_type` (named `setFeedType` here because the structure field
projection already uses the source name). -/
def setFeedType (b : SubscriptionParamsBuilder) (ft : FeedType) :
    SubscriptionParamsBuilder :=
  { b with feed_type := some ft }

/-- Setter `trades`, forwarding to the inner request builder. -/
def setTrades (b : SubscriptionParamsBuilder) (l : List String) :
    SubscriptionParamsBuilder :=
  { b with subscription_request := b.subscription_request.setTrades l }

/-- Setter `quotes`, forwarding to the inner request builder. -/
def setQuotes (b : SubscriptionParamsBuilder) (l : List String) :
    SubscriptionParamsBuilder :=
  { b with subscription_request := b.subscription_request.setQuotes l }

/-- Setter `bars`, forwarding to the inner request builder. -/
def setBars (b : SubscriptionParamsBuilder) (l : List String) :
    SubscriptionParamsBuilder :=
  { b with subscription_request := b.subscription_request.setBars l }

/-- Setter `updated_bars`, forwarding to the inner request builder. -/
def setUpdatedBars (b : SubscriptionParamsBuilder) (l : List String) :
    SubscriptionParamsBuilder :=
  { b with subscription_request := b.subscription_request.setUpdatedBars l }

/-- Setter `daily_bars`, forwarding to the inner request builder. -/
def setDailyBars (b : SubscriptionParamsBuilder) (l : List String) :
    SubscriptionParamsBuilder :=
  { b with subscription_request := b.subscription_request.setDailyBars l }

/-- Setter `orderbooks`, forwarding to the inner request builder. -/
def setOrderbooks (b : SubscriptionParamsBuilder) (l : List String) :
    SubscriptionParamsBuilder :=
  { b with subscription_request := b.subscription_request.setOrderbooks l }

/-- `SubscriptionParamsBuilder::build`.  The Rust body is
`self.feed_type.expect("FeedType is required")`: a `None` feed type panics,
modelled as `Except.error` with the panic message. -/
def build (b : SubscriptionParamsBuilder) : Except String SubscriptionParams :=
  match b.feed_type with
  | none => .error "FeedType is required"
  | some ft => .ok ⟨ft, b.subscription_request.build⟩

end SubscriptionParamsBuilder

/-- One public call on a `SubscriptionParamsBuilder` (used to state claims of
the form "a builder on which `feed_type` was never called"). -/
inductive ParamsCall where
  | feed_type (ft : FeedType)
  | trades (l : List String)
  | quotes (l : List String)
  | bars (l : List String)
  | updated_bars (l : List String)
  | daily_bars (l : List String)
  | orderbooks (l : List String)

/-- Interpret one builder call. -/
def applyCall (b : SubscriptionParamsBuilder) : ParamsCall →
    SubscriptionParamsBuilder
  | .feed_type ft => b.setFeedType ft
  | .trades l => b.setTrades l
  | .quotes l => b.setQuotes l
  | .bars l => b.setBars l
  | .updated_bars l => b.setUpdatedBars l
  | .daily_bars l => b.setDailyBars l
  | .orderbooks l => b.setOrderbooks l

/-- Interpret a sequence of builder calls, left to right. -/
def applyCalls (b : SubscriptionParamsBuilder) (cs : List ParamsCall) :
    SubscriptionParamsBuilder :=
  cs.foldl applyCall b

/-- Whether a builder call is a `feed_type` call. -/
def ParamsCall.isFeedTypeCall : ParamsCall → Bool
  | .feed_type _ => true
  | _ => false

/-- The `RawEvent` helper struct declared inside `EventType::from_str`
(`src/datastructures/event.rs`).  Field names are exactly the serde keys (no
rename attributes in the source, so the JSON key for `as_` is literally
`"as_"`).  `f64` fields are modelled as `ℚ`, `u64` fields as `ℕ`. -/
structure RawEvent where
  T : String
  S : String
  bp : Option ℚ
  bs : Option ℚ
  ap : Option ℚ
  as_ : Option ℚ
  o : Option ℚ
  h : Option ℚ
  l : Option ℚ
  c : Option ℚ
  v : Option ℕ
  t : String
  bids : Option (List (ℚ × ℕ))
  asks : Option (List (ℚ × ℕ))

/-- serde: a required `String` field — missing, `null`, or a non-string value
is a deserialization error for the record. -/
def getReqStr (fields : List (String × Json)) (key : String) :
    Except String String :=
  match jsonField fields key with
  | some (Json.str s) => .ok s
  | some _ => .error ("invalid type for field " ++ key)
  | none => .error ("missing field " ++ key)

/-- serde: an `Option<f64>` field — missing or `null` is `none`, a number is
`some`, anything else is a deserialization error. -/
def getOptNum (fields : List (String × Json)) (key : String) :
    Except String (Option ℚ) :=
  match jsonField fields key with
  | some (Json.num q) => .ok (some q)
  | some Json.null => .ok none
  | some _ => .error ("invalid type for field " ++ key)
  | none => .ok none

/-- serde: an `Option<u64>` field — a number is accepted only when it is a
non-negative integer. -/
def getOptU64 (fields : List (String × Json)) (key : String) :
    Except String (Option ℕ) :=
  match jsonField fields key with
  | some (Json.num q) =>
      if q.den = 1 ∧ 0 ≤ q.num then .ok (some q.num.toNat)
      else .error ("invalid value for field " ++ key)
  | some Json.null => .ok none
  | some _ => .error ("invalid type for field " ++ key)
  | none => .ok none

/-- serde: one `(f64, u64)` tuple, encoded as a two-element JSON array. -/
def parsePair (j : Json) : Except String (ℚ × ℕ) :=
  match j with
  | Json.arr [Json.num p, Json.num s] =>
      if s.den = 1 ∧ 0 ≤ s.num then .ok (p, s.num.toNat)
      else .error "invalid tuple element"
  | _ => .error "invalid tuple"

/-- serde: an `Option<Vec<(f64, u64)>>` field. -/
def getOptPairs (fields : List (String × Json)) (key : String) :
    Except String (Option (List (ℚ × ℕ))) :=
  match jsonField fields key with
  | some (Json.arr elems) => do
      let ps ← elems.mapM parsePair
      .ok (some ps)
  | some Json.null => .ok none
  | some _ => .error ("invalid type for field " ++ key)
  | none => .ok none

/-- serde deserialization of one `RawEvent` from a JSON value.  Unknown
fields are ignored (serde default); `T`, `S` and `t` are required `String`s,
everything else is optional. -/
def parseRawEvent (j : Json) : Except String RawEvent :=
  match j with
  | Json.obj fields => do
      let T ← getReqStr fields "T"
      let S ← getReqStr fields "S"
      let bp ← getOptNum fields "bp"
      let bs ← getOptNum fields "bs"
      let ap ← getOptNum fields "ap"
      let as_ ← getOptNum fields "as_"
      let o ← getOptNum fields "o"
      let h ← getOptNum fields "h"
      let l ← getOptNum fields "l"
      let c ← getOptNum fields "c"
      let v ← getOptU64 fields "v"
      let t ← getReqStr fields "t"
      let bids ← getOptPairs fields "bids"
      let asks ← getOptPairs fields "asks"
      .ok ⟨T, S, bp, bs, ap, as_, o, h, l, c, v, t, bids, asks⟩
  | _ => .error "invalid type: expected object"

/-- serde deserialization of `Vec<RawEvent>`: the frame must be a JSON array
and every element must deserialize — one bad element fails the whole vector
(this is `serde_json::from_str::<Vec<RawEvent>>`). -/
def parseFrame (j : Json) : Except String (List RawEvent) :=
  match j with
  | Json.arr elems => elems.mapM parseRawEvent
  | _ => .error "invalid type: expected array"

/-- `EventType` from `src/datastructures/event.rs`. -/
inductive EventType where
  | Trade (symbol : String) (price : ℚ) (volume : ℕ) (timestamp : String)
  | Quote (symbol : String) (bid_price : ℚ) (ask_price : ℚ)
      (bid_size : ℕ) (ask_size : ℕ) (timestamp : String)
  | Bar (symbol : String) (o : ℚ) (h : ℚ) (l : ℚ) (c : ℚ)
      (volume : ℕ) (timestamp : String)
  | UpdatedBar (symbol : String) (o : ℚ) (h : ℚ) (l : ℚ) (c : ℚ)
      (volume : ℕ) (timestamp : String)
  | DailyBar (symbol : String) (o : ℚ) (h : ℚ) (l : ℚ) (c : ℚ)
      (volume : ℕ) (timestamp : String)
  | OrderBook (symbol : String) (bids : List (ℚ × ℕ)) (asks : List (ℚ × ℕ))
      (timestamp : String)

/-- Rust `expr as u64` on an `f64`: saturating cast, truncating toward zero,
negative values to 0 (the source applies it to `unwrap_or_default()` values,
which are exact small numbers). -/
def ratToU64 (q : ℚ) : ℕ :=
  if q ≤ 0 then 0 else min q.floor.toNat (2 ^ 64 - 1)

/-- `EventType::from_str` (`src/datastructures/event.rs`), at the level of the
already-parsed JSON value of the frame: deserialize `Vec<RawEvent>`, reject an
empty vector, then decide from `raw_event[0]` alone — `"q"` builds a `Quote`
(prices and sizes zero-defaulted when absent), `"b"` builds a `Bar`
(zero-defaulted similarly), any other discriminator is an error. -/
def EventType.from_str (j : Json) : Except String EventType := do
  let raw_event ← parseFrame j
  match raw_event with
  | [] => .error "Empty event list"
  | event :: _ =>
      match event.T with
      | "q" => .ok (EventType.Quote event.S (event.bp.getD 0) (event.ap.getD 0)
          (ratToU64 (event.bs.getD 0)) (ratToU64 (event.as_.getD 0)) event.t)
      | "b" => .ok (EventType.Bar event.S (event.o.getD 0) (event.h.getD 0)
          (event.l.getD 0) (event.c.getD 0) (event.v.getD 0) event.t)
      | _ => .error "Unknown event type"

/-- One inbound websocket frame, as matched by the `tungstenite::Message`
patterns the source uses: `Text`, `Binary`, and a catch-all for the other
(control) frame kinds. -/
inductive Frame where
  | text (s : String)
  | binary (bytes : List ℕ)
  | other

/-- The authentication message `AlpacaClient::subscribe` builds with
`json!` (`src/alpaca.rs`): action `"authenticate"` with the credentials
nested under `"data"` as `"key_id"` / `"secret_key"`.  `serde_json`'s map is
key-sorted, which the field order here matches. -/
def authMessage (api_key secret_key : String) : Json :=
  Json.obj
    [("action", Json.str "authenticate"),
     ("data", Json.obj
        [("key_id", Json.str api_key),
         ("secret_key", Json.str secret_key)])]

/-- The subscription message `AlpacaClient::subscribe` builds with `json!`
(`src/alpaca.rs`): the constant `{"action":"subscribe","bars":["AAPL"]}`,
independent of the caller's arguments. -/
def subscribeMessage : Json :=
  Json.obj
    [("action", Json.str "subscribe"),
     ("bars", Json.arr [Json.str "AAPL"])]

/-- The handshake message shape the specification states (§6):
`{"action":"auth","key":<string>,"secret":<string>}`.  Declared from the
spec's words only, to compare against `authMessage`, the one the code
builds. -/
def specAuthMessage (api_key secret_key : String) : Json :=
  Json.obj
    [("action", Json.str "auth"),
     ("key", Json.str api_key),
     ("secret", Json.str secret_key)]

/-- The `AlpacaClient` struct (`src/alpaca.rs`), restricted to the fields the
websocket path reads.  (`http_client` and `base_url` only serve the HTTP
operations, which are out of scope here.) -/
structure AlpacaClient where
  api_key : String
  secret_key : String
  enable_real_trading : Bool

/-- Observable result of one `subscribe` call: the text messages sent over
the socket (as parsed JSON values, in order) and the returned
`Result<(), _>`. -/
structure SessionResult where
  sent : List Json
  outcome : Except String Unit

/-- `AlpacaClient::subscribe` (`src/alpaca.rs`), as a function of the
transport's observable behaviour: the HTTP status of the upgrade response and
the list of inbound frames the socket will yield (an exhausted list models
`socket.next()` returning `None`, i.e. connection closure).  The function
returns the messages sent and the call's result.  Control flow mirrors the
source exactly:
1. a non-101 status returns `Err("Connection failed with non-101 status
   code")` with nothing sent;
2. otherwise the `authMessage` is sent, and at most one inbound frame is
   examined: a text frame whose contents contain `"unauthorized"` or
   `"error"` as a substring returns `Err("Authentication failed")`; any
   other first frame — or closure before any frame — falls through;
3. on falling through, the constant `subscribeMessage` is sent once and the
   receive loop (which only prints) runs to closure, returning `Ok(())`.
The `symbol` and `feed_type` parameters are accepted and, like in the
source's websocket path, never influence the messages sent; the URL chosen
from `feed_type` only affects which server the abstracted transport reaches.
-/
def AlpacaClient.subscribe (cl : AlpacaClient) (symbol : String)
    (feed_type : FeedType) (status : ℕ) (inbound : List Frame) :
    SessionResult :=
  if status ≠ 101 then
    { sent := [], outcome := .error "Connection failed with non-101 status code" }
  else
    let auth := authMessage cl.api_key cl.secret_key
    match inbound with
    | [] => { sent := [auth, subscribeMessage], outcome := .ok () }
    | f :: _ =>
        match f with
        | .text txt =>
            if containsSubstr txt "unauthorized" || containsSubstr txt "error" then
              { sent := [auth], outcome := .error "Authentication failed" }
            else
              { sent := [auth, subscribeMessage], outcome := .ok () }
        | _ => { sent := [auth, subscribeMessage], outcome := .ok () }


section Helpers

/-- Bind on `Except` after a success. -/
theorem exceptBindOk {α β : Type} (a : α) (f : α → Except String β) :
    (Except.ok a : Except String α) >>= f = f a := rfl

/-- Bind on `Except` after a failure. -/
theorem exceptBindErr {α β : Type} (e : String) (f : α → Except String β) :
    (Except.error e : Except String α) >>= f = Except.error e := rfl

/-- `pure` on `Except` is `Except.ok`. -/
theorem exceptPure {α : Type} (a : α) :
    (pure a : Except String α) = Except.ok a := rfl

/-- A successful required-string read means the key is present and bound to a
JSON string. -/
theorem getReqStr_ok {fields : List (String × Json)} {key s : String}
    (hok : getReqStr fields key = Except.ok s) :
    jsonField fields key = some (Json.str s) := by
  unfold getReqStr at hok
  cases hj : jsonField fields key with
  | none => rw [hj] at hok; cases hok
  | some v =>
      rw [hj] at hok
      cases v with
      | str s' => injection hok with h; rw [h]
      | null => cases hok
      | bool b => cases hok
      | num q => cases hok
      | arr a => cases hok
      | obj f => cases hok

/-- A record that parses has its three required string fields present. -/
theorem parseRawEvent_ok_required {fields : List (String × Json)}
    {e : RawEvent} (hok : parseRawEvent (Json.obj fields) = Except.ok e) :
    (∃ s, jsonField fields "T" = some (Json.str s)) ∧
    (∃ s, jsonField fields "S" = some (Json.str s)) ∧
    (∃ s, jsonField fields "t" = some (Json.str s)) := by
  simp only [parseRawEvent] at hok
  cases hT : getReqStr fields "T" with
  | error m => rw [hT, exceptBindErr] at hok; exact absurd hok (by simp)
  | ok vT =>
  rw [hT, exceptBindOk] at hok
  cases hS : getReqStr fields "S" with
  | error m => rw [hS, exceptBindErr] at hok; exact absurd hok (by simp)
  | ok vS =>
  rw [hS, exceptBindOk] at hok
  cases hbp : getOptNum fields "bp" with
  | error m => rw [hbp, exceptBindErr] at hok; exact absurd hok (by simp)
  | ok vbp =>
  rw [hbp, exceptBindOk] at hok
  cases hbs : getOptNum fields "bs" with
  | error m => rw [hbs, exceptBindErr] at hok; exact absurd hok (by simp)
  | ok vbs =>
  rw [hbs, exceptBindOk] at hok
  cases hap : getOptNum fields "ap" with
  | error m => rw [hap, exceptBindErr] at hok; exact absurd hok (by simp)
  | ok vap =>
  rw [hap, exceptBindOk] at hok
  cases has : getOptNum fields "as_" with
  | error m => rw [has, exceptBindErr] at hok; exact absurd hok (by simp)
  | ok vas =>
  rw [has, exceptBindOk] at hok
  cases ho : getOptNum fields "o" with
  | error m => rw [ho, exceptBindErr] at hok; exact absurd hok (by simp)
  | ok vo =>
  rw [ho, exceptBindOk] at hok
  cases hh : getOptNum fields "h" with
  | error m => rw [hh, exceptBindErr] at hok; exact absurd hok (by simp)
  | ok vh =>
  rw [hh, exceptBindOk] at hok
  cases hl : getOptNum fields "l" with
  | error m => rw [hl, exceptBindErr] at hok; exact absurd hok (by simp)
  | ok vl =>
  rw [hl, exceptBindOk] at hok
  cases hc : getOptNum fields "c" with
  | error m => rw [hc, exceptBindErr] at hok; exact absurd hok (by simp)
  | ok vc =>
  rw [hc, exceptBindOk] at hok
  cases hv : getOptU64 fields "v" with
  | error m => rw [hv, exceptBindErr] at hok; exact absurd hok (by simp)
  | ok vv =>
  rw [hv, exceptBindOk] at hok
  cases ht : getReqStr fields "t" with
  | error m => rw [ht, exceptBindErr] at hok; exact absurd hok (by simp)
  | ok vt =>
  exact ⟨⟨vT, getReqStr_ok hT⟩, ⟨vS, getReqStr_ok hS⟩, ⟨vt, getReqStr_ok ht⟩⟩

/-- If `mapM` over a list succeeds, every element parses. -/
theorem mapM_ok_of_mem {elems : List Json} {l : List RawEvent} {j : Json}
    (hml : elems.mapM parseRawEvent = Except.ok l) (hmem : j ∈ elems) :
    ∃ e, parseRawEvent j = Except.ok e := by
  induction elems generalizing l with
  | nil => cases hmem
  | cons x xs ih =>
      rw [List.mapM_cons] at hml
      cases hx : parseRawEvent x with
      | error m => rw [hx, exceptBindErr] at hml; exact absurd hml (by simp)
      | ok e =>
          rw [hx, exceptBindOk] at hml
          cases hxs : xs.mapM parseRawEvent with
          | error m => rw [hxs, exceptBindErr] at hml; exact absurd hml (by simp)
          | ok es =>
              cases hmem with
              | head => exact ⟨e, hx⟩
              | tail _ hmem' => exact ih hxs hmem'

end Helpers

/-- C6: decoding the empty JSON array `[]` yields the "Empty event list"
decode error, and decoding the one-record quote frame
`[{"T":"q","S":"AAPL","bp":100.0,"ap":100.5,"t":"2024-01-01T00:00:00Z"}]`
yields one `Quote` for `"AAPL"` with bid price 100, ask price 100.5, and both
sizes defaulted to 0 because the `bs`/`as_` fields are absent. -/
theorem C6_empty_frame_and_sparse_quote :
    EventType.from_str (Json.arr []) = Except.error "Empty event list" ∧
    EventType.from_str (Json.arr [Json.obj
      [("T", Json.str "q"), ("S", Json.str "AAPL"), ("bp", Json.num 100),
       ("ap", Json.num 100.5), ("t", Json.str "2024-01-01T00:00:00Z")]]) =
      Except.ok (EventType.Quote "AAPL" 100 100.5 0 0
        "2024-01-01T00:00:00Z") :=
  ⟨rfl, rfl⟩

/-- C7: a fresh `SubscriptionRequestBuilder` on which only the trades setter
was called builds a `SubscriptionRequest` whose trades list is exactly the
given list, whose other five channel lists are empty, and whose action is the
constant `"subscribe"`; moreover every one of the six channel setters
overwrites (does not append to) that channel's prior list when called
twice. -/
theorem C7_builder_trades_only_and_overwrite :
    (∀ l : List String,
      (SubscriptionRequestBuilder.new.setTrades l).build =
        ⟨"subscribe", l, [], [], [], [], []⟩) ∧
    (∀ (b : SubscriptionRequestBuilder) (l₁ l₂ : List String),
      (b.setTrades l₁).setTrades l₂ = b.setTrades l₂ ∧
      (b.setQuotes l₁).setQuotes l₂ = b.setQuotes l₂ ∧
      (b.setBars l₁).setBars l₂ = b.setBars l₂ ∧
      (b.setUpdatedBars l₁).setUpdatedBars l₂ = b.setUpdatedBars l₂ ∧
      (b.setDailyBars l₁).setDailyBars l₂ = b.setDailyBars l₂ ∧
      (b.setOrderbooks l₁).setOrderbooks l₂ = b.setOrderbooks l₂) :=
  ⟨fun _ => rfl, fun _ _ _ => ⟨rfl, rfl, rfl, rfl, rfl, rfl⟩⟩

/-- Applying a sequence of non-`feed_type` builder calls leaves the feed
type unset. -/
theorem applyCalls_feed_type_none (b : SubscriptionParamsBuilder)
    (cs : List ParamsCall) (hb : b.feed_type = none)
    (hcs : ∀ c ∈ cs, c.isFeedTypeCall = false) :
    (applyCalls b cs).feed_type = none := by
  induction cs generalizing b with
  | nil => exact hb
  | cons c rest ih =>
      have hc : c.isFeedTypeCall = false := hcs c (List.mem_cons_self c rest)
      have hrest : ∀ c' ∈ rest, c'.isFeedTypeCall = false :=
        fun c' hc' => hcs c' (List.mem_cons_of_mem _ hc')
      have hstep : (applyCall b c).feed_type = none := by
        cases c with
        | feed_type ft => exact absurd hc (by simp [ParamsCall.isFeedTypeCall])
        | trades l => exact hb
        | quotes l => exact hb
        | bars l => exact hb
        | updated_bars l => exact hb
        | daily_bars l => exact hb
        | orderbooks l => exact hb
      exact ih (applyCall b c) hstep hrest

/-- C9: a `SubscriptionParamsBuilder` built from `new` by any sequence of
calls that never includes `feed_type(...)` panics in `build()` with
`"FeedType is required"` (the `expect` message), modelled as `Except.error`
of the panic message. -/
theorem C9_build_without_feed_type_panics (cs : List ParamsCall)
    (hcs : ∀ c ∈ cs, c.isFeedTypeCall = false) :
    (applyCalls SubscriptionParamsBuilder.new cs).build =
      Except.error "FeedType is required" := by
  have hnone :=
    applyCalls_feed_type_none SubscriptionParamsBuilder.new cs rfl hcs
  unfold SubscriptionParamsBuilder.build
  rw [hnone]

/-- Witness for C9 at a concrete call sequence (one trades call, no
feed-type call). -/
theorem C9_witness :
    (applyCalls SubscriptionParamsBuilder.new
      [ParamsCall.trades ["AAPL"]]).build =
      Except.error "FeedType is required" :=
  C9_build_without_feed_type_panics [ParamsCall.trades ["AAPL"]]
    (by intro c hc; simp at hc; subst hc; rfl)

/-- C10: the zero-default policy covers only the optional numeric fields; a
frame containing a record (a JSON object) that lacks any of the required
string fields `"T"`, `"S"` or `"t"` fails deserialization as a whole —
`EventType::from_str` returns an error for the entire frame rather than a
defaulted event. -/
theorem C10_missing_required_field_fails_frame (elems : List Json)
    (fields : List (String × Json)) (hmem : Json.obj fields ∈ elems)
    (hmiss : jsonField fields "T" = none ∨ jsonField fields "S" = none ∨
      jsonField fields "t" = none) :
    ∃ msg, EventType.from_str (Json.arr elems) = Except.error msg := by
  cases hres : EventType.from_str (Json.arr elems) with
  | error m => exact ⟨m, rfl⟩
  | ok ev =>
      exfalso
      cases hpf : parseFrame (Json.arr elems) with
      | error m =>
          rw [EventType.from_str, hpf, exceptBindErr] at hres
          cases hres
      | ok l =>
          have hml : elems.mapM parseRawEvent = Except.ok l := by
            simpa only [parseFrame] using hpf
          obtain ⟨e, he⟩ := mapM_ok_of_mem hml hmem
          obtain ⟨⟨sT, hT⟩, ⟨sS, hS⟩, ⟨st, ht⟩⟩ := parseRawEvent_ok_required he
          rcases hmiss with h | h | h
          · rw [h] at hT; cases hT
          · rw [h] at hS; cases hS
          · rw [h] at ht; cases ht

/-- Witness for C10: a one-record frame whose record lacks `"T"`. -/
theorem C10_witness :
    ∃ msg, EventType.from_str (Json.arr
      [Json.obj [("S", Json.str "AAPL"),
                 ("t", Json.str "2024-01-01T00:00:00Z")]]) =
      Except.error msg :=
  C10_missing_required_field_fails_frame
    [Json.obj [("S", Json.str "AAPL"), ("t", Json.str "2024-01-01T00:00:00Z")]]
    [("S", Json.str "AAPL"), ("t", Json.str "2024-01-01T00:00:00Z")]
    (by simp) (Or.inl rfl)

/-- C8, counterexample to the claim as stated: a frame holding a record with
the unknown discriminator `"x"` in second position decodes with no
`DecodeError` at all — the whole frame yields the first record's `Quote`, so
it is not the case that every unknown-discriminator record yields a
`DecodeError` for that record. -/
theorem C8_counterexample :
    EventType.from_str (Json.arr
      [Json.obj [("T", Json.str "q"), ("S", Json.str "MSFT"),
                 ("t", Json.str "2024-01-02T00:00:00Z")],
       Json.obj [("T", Json.str "x"), ("S", Json.str "MSFT"),
                 ("t", Json.str "2024-01-02T00:00:00Z")]]) =
      Except.ok (EventType.Quote "MSFT" 0 0 0 0 "2024-01-02T00:00:00Z") :=
  rfl

/-- C8, amended: when the FIRST record of a frame whose records all
deserialize has a discriminator that is neither `"q"` nor `"b"`, the decoder
returns the `"Unknown event type"` error normally (`EventType.from_str` is a
total function, so no crash is possible by construction). -/
theorem C8_unknown_first_discriminator (x : Json) (xs : List Json)
    (e : RawEvent) (l : List RawEvent) (hx : parseRawEvent x = Except.ok e)
    (hxs : xs.mapM parseRawEvent = Except.ok l)
    (hq : e.T ≠ "q") (hb : e.T ≠ "b") :
    EventType.from_str (Json.arr (x :: xs)) =
      Except.error "Unknown event type" := by
  rw [EventType.from_str, parseFrame, List.mapM_cons, hx, exceptBindOk, hxs,
    exceptBindOk]
  simp [hq, hb]

/-- Witness for C8's amended theorem: the single-record frame
`[{"T":"x","S":"AAPL","t":"..."}]` decodes to the unknown-event-type
error. -/
theorem C8_witness :
    EventType.from_str (Json.arr
      [Json.obj [("T", Json.str "x"), ("S", Json.str "AAPL"),
                 ("t", Json.str "...")]]) =
      Except.error "Unknown event type" :=
  C8_unknown_first_discriminator
    (Json.obj [("T", Json.str "x"), ("S", Json.str "AAPL"),
               ("t", Json.str "...")])
    [] ⟨"x", "AAPL", none, none, none, none, none, none, none, none, none,
        "...", none, none⟩ []
    rfl rfl (by decide) (by decide)

/-- C4, counterexample to the claim as stated: decoding is not per-record.
A frame with two well-formed records yields exactly one decode outcome (the
first record's event, here a `Bar`), not one outcome per record; and a frame
whose first record has a bad discriminator yields a single frame-level error
that loses the well-formed second record. -/
theorem C4_counterexample :
    EventType.from_str (Json.arr
      [Json.obj [("T", Json.str "b"), ("S", Json.str "SPY"),
                 ("o", Json.num 1), ("h", Json.num 2), ("l", Json.num 0.5),
                 ("c", Json.num 1.5), ("v", Json.num 10),
                 ("t", Json.str "2024-03-01T00:00:00Z")],
       Json.obj [("T", Json.str "q"), ("S", Json.str "QQQ"),
                 ("t", Json.str "2024-03-01T00:00:00Z")]]) =
      Except.ok (EventType.Bar "SPY" 1 2 0.5 1.5 10
        "2024-03-01T00:00:00Z") ∧
    EventType.from_str (Json.arr
      [Json.obj [("T", Json.str "z"), ("S", Json.str "SPY"),
                 ("t", Json.str "2024-03-01T00:00:00Z")],
       Json.obj [("T", Json.str "q"), ("S", Json.str "QQQ"),
                 ("t", Json.str "2024-03-01T00:00:00Z")]]) =
      Except.error "Unknown event type" :=
  ⟨rfl, rfl⟩

/-- C4, amended: `EventType::from_str` returns one outcome per frame, decided
by the first record alone — appending further records that deserialize does
not change the result, so records after the first are dropped rather than
decoded independently. -/
theorem C4_first_record_decides (x : Json) (xs : List Json)
    (l : List RawEvent) (hxs : xs.mapM parseRawEvent = Except.ok l) :
    EventType.from_str (Json.arr (x :: xs)) =
      EventType.from_str (Json.arr [x]) := by
  cases hx : parseRawEvent x with
  | error m =>
      simp only [EventType.from_str, parseFrame, List.mapM_cons,
        List.mapM_nil, hx, exceptBindErr, exceptBindOk, exceptPure]
  | ok e =>
      simp only [EventType.from_str, parseFrame, List.mapM_cons,
        List.mapM_nil, hx, hxs, exceptBindErr, exceptBindOk, exceptPure]

/-- Witness for C4's amended theorem: a quote record followed by a bar record
decodes identically to the quote record alone. -/
theorem C4_witness :
    EventType.from_str (Json.arr
      [Json.obj [("T", Json.str "q"), ("S", Json.str "IBM"),
                 ("t", Json.str "2024-03-02T00:00:00Z")],
       Json.obj [("T", Json.str "b"), ("S", Json.str "IBM"),
                 ("t", Json.str "2024-03-02T00:00:00Z")]]) =
    EventType.from_str (Json.arr
      [Json.obj [("T", Json.str "q"), ("S", Json.str "IBM"),
                 ("t", Json.str "2024-03-02T00:00:00Z")]]) :=
  C4_first_record_decides
    (Json.obj [("T", Json.str "q"), ("S", Json.str "IBM"),
               ("t", Json.str "2024-03-02T00:00:00Z")])
    [Json.obj [("T", Json.str "b"), ("S", Json.str "IBM"),
               ("t", Json.str "2024-03-02T00:00:00Z")]]
    [⟨"b", "IBM", none, none, none, none, none, none, none, none, none,
      "2024-03-02T00:00:00Z", none, none⟩]
    rfl

/-- C1, counterexample to the claim as stated: with a successful upgrade but
connection closure before any classifying message (no inbound frames), and
likewise with a non-text first frame, the code does NOT fail with an
auth-ambiguous error — it optimistically proceeds, sends the subscription
message, and returns `Ok(())`. -/
theorem C1_counterexample :
    (AlpacaClient.subscribe ⟨"apikey", "apisecret", false⟩ "AAPL"
      FeedType.Stocks 101 []).outcome = Except.ok () ∧
    (AlpacaClient.subscribe ⟨"apikey", "apisecret", false⟩ "AAPL"
      FeedType.Stocks 101 []).sent =
      [authMessage "apikey" "apisecret", subscribeMessage] ∧
    (AlpacaClient.subscribe ⟨"apikey", "apisecret", false⟩ "AAPL"
      FeedType.Stocks 101 [Frame.binary [1, 2]]).outcome = Except.ok () :=
  ⟨rfl, rfl, rfl⟩

/-- C1, amended: after the auth message is sent, at most one inbound frame is
examined; a text frame containing `"unauthorized"` or `"error"` as a
substring fails the session with `"Authentication failed"` and nothing more
is sent; any other first frame — text without those markers, a binary or
control frame, or closure before any frame — leads to optimistically sending
the subscription message and returning `Ok(())` (there is no success-marker
check and no auth-ambiguous failure). -/
theorem C1_handshake_classification (cl : AlpacaClient) (symbol : String)
    (ft : FeedType) :
    (∀ txt rest,
      (containsSubstr txt "unauthorized" || containsSubstr txt "error") =
        true →
      AlpacaClient.subscribe cl symbol ft 101 (Frame.text txt :: rest) =
        ⟨[authMessage cl.api_key cl.secret_key],
         Except.error "Authentication failed"⟩) ∧
    (∀ txt rest,
      (containsSubstr txt "unauthorized" || containsSubstr txt "error") =
        false →
      AlpacaClient.subscribe cl symbol ft 101 (Frame.text txt :: rest) =
        ⟨[authMessage cl.api_key cl.secret_key, subscribeMessage],
         Except.ok ()⟩) ∧
    (∀ bytes rest,
      AlpacaClient.subscribe cl symbol ft 101 (Frame.binary bytes :: rest) =
        ⟨[authMessage cl.api_key cl.secret_key, subscribeMessage],
         Except.ok ()⟩) ∧
    (∀ rest,
      AlpacaClient.subscribe cl symbol ft 101 (Frame.other :: rest) =
        ⟨[authMessage cl.api_key cl.secret_key, subscribeMessage],
         Except.ok ()⟩) ∧
    AlpacaClient.subscribe cl symbol ft 101 [] =
      ⟨[authMessage cl.api_key cl.secret_key, subscribeMessage],
       Except.ok ()⟩ := by
  refine ⟨?_, ?_, ?_, ?_, ?_⟩
  · intro txt rest h
    simp [AlpacaClient.subscribe, h]
  · intro txt rest h
    simp [AlpacaClient.subscribe, h]
  · intro bytes rest
    simp [AlpacaClient.subscribe]
  · intro rest
    simp [AlpacaClient.subscribe]
  · simp [AlpacaClient.subscribe]

/-- Witness for C1's amended theorem: a rejecting first message and an
accepting first message, at concrete inputs. -/
theorem C1_witness :
    AlpacaClient.subscribe ⟨"wk", "ws", true⟩ "SPY" FeedType.Crypto 101
      [Frame.text "auth error occurred"] =
      ⟨[authMessage "wk" "ws"], Except.error "Authentication failed"⟩ ∧
    AlpacaClient.subscribe ⟨"wk", "ws", true⟩ "SPY" FeedType.Crypto 101
      [Frame.text "authenticated"] =
      ⟨[authMessage "wk" "ws", subscribeMessage], Except.ok ()⟩ :=
  ⟨(C1_handshake_classification ⟨"wk", "ws", true⟩ "SPY" FeedType.Crypto).1
      "auth error occurred" [] (by decide),
   (C1_handshake_classification ⟨"wk", "ws", true⟩ "SPY" FeedType.Crypto).2.1
      "authenticated" [] (by decide)⟩

/-- C2, counterexample to the claim as stated: the Stocks feed does NOT use
one host regardless of mode — live and paper resolve to different URLs — and
the `Test` feed kind has no defined URL at all (the source `match` has no arm
for it), so the resolver is not total on all five feed kinds. -/
theorem C2_counterexample :
    get_ws_url FeedType.Stocks true ≠ get_ws_url FeedType.Stocks false ∧
    get_ws_url FeedType.Test true = none := by
  decide

/-- C2, amended: `get_ws_url` is defined (pure and deterministic by
construction) on the four handled feed kinds but has no arm for `Test`; on
the handled kinds, distinct feed kinds resolve to distinct URLs at each
fixed trading mode, and every handled feed kind — including Stocks, contrary
to the claim — resolves to different hosts for live versus paper mode (for
Crypto, News and Options this is the production/sandbox split; for Stocks it
is the live stream versus the test stream). -/
theorem C2_endpoint_resolution :
    (∀ (ert : Bool) (ft : FeedType), ft ≠ FeedType.Test →
      (get_ws_url ft ert).isSome = true) ∧
    (∀ ert : Bool, (get_ws_url FeedType.Test ert).isSome = false) ∧
    (∀ (ert : Bool) (ft₁ ft₂ : FeedType), ft₁ ≠ FeedType.Test →
      ft₂ ≠ FeedType.Test → ft₁ ≠ ft₂ →
      get_ws_url ft₁ ert ≠ get_ws_url ft₂ ert) ∧
    (∀ ft : FeedType, ft ≠ FeedType.Test →
      get_ws_url ft true ≠ get_ws_url ft false) := by
  decide

/-- Witness for C2's amended theorem at concrete feed kinds and modes. -/
theorem C2_witness :
    (get_ws_url FeedType.Crypto false).isSome = true ∧
    get_ws_url FeedType.Crypto false ≠ get_ws_url FeedType.News false ∧
    get_ws_url FeedType.Options true ≠ get_ws_url FeedType.Options false :=
  ⟨C2_endpoint_resolution.1 false FeedType.Crypto (by decide),
   C2_endpoint_resolution.2.2.1 false FeedType.Crypto FeedType.News
     (by decide) (by decide) (by decide),
   C2_endpoint_resolution.2.2.2 FeedType.Options (by decide)⟩

/-- C3: evaluation of the code at the failing input.  The connection-gating
parts of the claim hold (a non-101 status fails with the connection error
and nothing is sent; on auth rejection only the auth message was sent; on
success exactly one subscription message is sent before the receive loop),
but the message sent is the hardcoded constant
`{"action":"subscribe","bars":["AAPL"]}` — for a call subscribing to
`"TSLA"` it still names `"AAPL"`, and it is identical across different
`symbol` arguments, so it is not the `SubscriptionRequest` built from the
caller's channel lists. -/
theorem C3_code_evaluation :
    (AlpacaClient.subscribe ⟨"ck", "cs", false⟩ "TSLA" FeedType.Stocks 200
      []).sent = [] ∧
    (AlpacaClient.subscribe ⟨"ck", "cs", false⟩ "TSLA" FeedType.Stocks 200
      []).outcome = Except.error "Connection failed with non-101 status code" ∧
    (AlpacaClient.subscribe ⟨"ck", "cs", false⟩ "TSLA" FeedType.Stocks 101
      [Frame.text "unauthorized"]).sent = [authMessage "ck" "cs"] ∧
    (AlpacaClient.subscribe ⟨"ck", "cs", false⟩ "TSLA" FeedType.Stocks 101
      [Frame.text "authenticated"]).sent =
      [authMessage "ck" "cs",
       Json.obj [("action", Json.str "subscribe"),
                 ("bars", Json.arr [Json.str "AAPL"])]] ∧
    (AlpacaClient.subscribe ⟨"ck", "cs", false⟩ "TSLA" FeedType.Stocks 101
      [Frame.text "authenticated"]).sent =
    (AlpacaClient.subscribe ⟨"ck", "cs", false⟩ "MSFT" FeedType.Stocks 101
      [Frame.text "authenticated"]).sent :=
  ⟨rfl, rfl, rfl, rfl, rfl⟩

/-- C5, counterexample to the claim as stated: the handshake message the code
actually sends first is not the claimed
`{"action":"auth","key":<key>,"secret":<secret>}` object. -/
theorem C5_counterexample :
    (AlpacaClient.subscribe ⟨"k1", "s1", false⟩ "AAPL" FeedType.Stocks 101
      []).sent.head? = some (authMessage "k1" "s1") ∧
    authMessage "k1" "s1" ≠ specAuthMessage "k1" "s1" := by
  refine ⟨rfl, ?_⟩
  simp [authMessage, specAuthMessage]

/-- C5, amended: the first message sent on every upgraded connection is the
JSON object `{"action":"authenticate","data":{"key_id":<the API key
string>,"secret_key":<the secret string>}}` — the action tag is
`"authenticate"` and the credentials are nested under a top-level `"data"`
field as `"key_id"` and `"secret_key"`. -/
theorem C5_auth_message_shape (cl : AlpacaClient) (symbol : String)
    (ft : FeedType) (inbound : List Frame) :
    (AlpacaClient.subscribe cl symbol ft 101 inbound).sent.head? =
      some (Json.obj
        [("action", Json.str "authenticate"),
         ("data", Json.obj
            [("key_id", Json.str cl.api_key),
             ("secret_key", Json.str cl.secret_key)])]) := by
  cases inbound with
  | nil => rfl
  | cons f rest =>
      cases f with
      | text txt =>
          simp only [AlpacaClient.subscribe]
          norm_num
          split <;> rfl
      | binary bytes => rfl
      | other => rfl
